import Mathlib

/-!
Verification of the campus-administration chat agent
(`backend/tools.py`, `backend/agent.py`, `backend/main.py`, `backend/db.py`).

The persistence collaborator (MongoDB) is shallowly embedded: a stored
document is an insertion-ordered association list of string fields and a
collection is the ordered list of its documents.  The automatically added
`_id` field is never read by the code (every read projects it away with
`{"_id": 0}`), so it is omitted from the model.  The module-global
`students_collection` handle of `tools.py` — which is `None` when the
connection at import time failed — is threaded explicitly as an
`Option Collection` argument, and mutating tools return the post-state of
the collection next to the string they return.
-/

/-- A stored student document: an insertion-ordered association list of
string-valued fields, mirroring a flat BSON document (minus `_id`). -/
abbrev Document := List (String × String)

/-- The `students` collection: its documents in natural (insertion) order. -/
abbrev Collection := List Document

/-- Reading a field of a document (first occurrence of the key). -/
def docGet (d : Document) (k : String) : Option String :=
  (d.find? (fun p => p.1 == k)).map Prod.snd

/-- Whether a document carries a field named `k`. -/
def docHasKey (d : Document) (k : String) : Bool :=
  d.any (fun p => p.1 == k)

/-- MongoDB `$set` on one flat field: replace the field when present,
append it as a new key when absent. -/
def docSet (d : Document) (k v : String) : Document :=
  if docHasKey d k then d.map (fun p => if p.1 == k then (k, v) else p)
  else d ++ [(k, v)]

/-- The filter `{"id": i}` on a flat string document. -/
def matchesId (i : String) (d : Document) : Bool :=
  docGet d "id" == some i

/-- `find_one({"id": i})`: the first document in natural order whose `id`
field equals `i`. -/
def findOneById (c : Collection) (i : String) : Option Document :=
  c.find? (matchesId i)

/-- `update_one`: rewrite the first document satisfying `p` with `f`,
leaving everything else in place. -/
def updateFirst (c : Collection) (p : Document → Bool) (f : Document → Document) :
    Collection :=
  match c with
  | [] => []
  | d :: rest => if p d then f d :: rest else d :: updateFirst rest p f

/-- `delete_one`: remove the first document satisfying `p`. -/
def eraseFirst (c : Collection) (p : Document → Bool) : Collection :=
  match c with
  | [] => []
  | d :: rest => if p d then rest else d :: eraseFirst rest p

/-- `count_documents({})`: the number of documents in the collection. -/
def countDocuments (c : Collection) : Nat :=
  c.length

/-- `json.dumps(doc, indent=2)` on a flat string document (escaping of
special characters inside values is elided; no claim depends on it). -/
def jsonDumps (d : Document) : String :=
  "\x7b\n"
    ++ String.intercalate ",\n"
        (d.map (fun p => "  \"" ++ p.1 ++ "\": \"" ++ p.2 ++ "\""))
    ++ "\n\x7d"

/-- `json.dumps(list_of_docs, indent=2)` (inner indentation elided). -/
def jsonDumpsArray (c : Collection) : String :=
  "[\n" ++ String.intercalate ",\n" (c.map jsonDumps) ++ "\n]"

/-- Rendering of one department key of the grouped-counts dict: a `None`
group key (document without the field) prints as Python renders it. -/
def jsonKey : Option String → String
  | some s => "\"" ++ s ++ "\""
  | none => "\"null\""

/-- `json.dumps(dept_counts, indent=2)` for the department→count mapping. -/
def jsonDumpsCounts (l : List (Option String × Nat)) : String :=
  "\x7b\n"
    ++ String.intercalate ",\n"
        (l.map (fun p => "  " ++ jsonKey p.1 ++ ": " ++ toString p.2))
    ++ "\n\x7d"

/-- `tools.list_students`. -/
def list_students (db : Option Collection) : String :=
  match db with
  | none => "Error: Database connection failed."
  | some c => jsonDumpsArray c

/-- `tools.get_student`: `find_one({"id": id}, {"_id": 0})`, JSON dump on a
hit (a hit always has the `id` field, hence is truthy), error string on a
miss. -/
def get_student (db : Option Collection) (i : String) : String :=
  match db with
  | none => "Error: Database connection failed."
  | some c =>
      match findOneById c i with
      | some student => jsonDumps student
      | none => "Error: No student found with ID " ++ i ++ "."

/-- `tools.add_student`: refuse a duplicate `id` (the `find_one` truthiness
test), otherwise insert the four-field document; returns the post-state of
the collection next to the returned string. -/
def add_student (db : Option Collection) (i n dep e : String) :
    Option Collection × String :=
  match db with
  | none => (none, "Error: Database connection failed.")
  | some c =>
      if (findOneById c i).isSome then
        (some c, "Error: Student with ID " ++ i ++ " already exists.")
      else
        (some (c ++ [[("id", i), ("name", n), ("department", dep), ("email", e)]]),
         "Success: Student " ++ n ++ " with ID " ++ i ++ " has been added.")

/-- `tools.update_student`: `update_one({"id": id}, {"$set": {field: v}})`;
`matched_count` is 0 exactly when no document has that `id`. -/
def update_student (db : Option Collection) (i field v : String) :
    Option Collection × String :=
  match db with
  | none => (none, "Error: Database connection failed.")
  | some c =>
      let matchedCount := if c.any (matchesId i) then 1 else 0
      if matchedCount == 0 then
        (some c, "Error: No student found with ID " ++ i ++ ".")
      else
        (some (updateFirst c (matchesId i) (fun d => docSet d field v)),
         "Success: Student with ID " ++ i ++ " updated successfully.")

/-- `tools.delete_student`: `delete_one({"id": id})`; `deleted_count` is 0
exactly when no document has that `id`. -/
def delete_student (db : Option Collection) (i : String) :
    Option Collection × String :=
  match db with
  | none => (none, "Error: Database connection failed.")
  | some c =>
      let deletedCount := if c.any (matchesId i) then 1 else 0
      if deletedCount == 0 then
        (some c, "Error: No student found with ID " ++ i ++ ".")
      else
        (some (eraseFirst c (matchesId i)),
         "Success: Student with ID " ++ i ++ " has been deleted.")

/-- `tools.get_total_students`: `str(count_documents({}))`. -/
def get_total_students (db : Option Collection) : String :=
  match db with
  | none => "Error: Database connection failed."
  | some c => toString (countDocuments c)

/-- The `$department` group key of a document (`None` when absent, as the
`$group` stage produces a `null` group id for such documents). -/
def departmentKey (d : Document) : Option String :=
  docGet d "department"

/-- One accumulation step of the `$group` stage with `{"$sum": 1}`: bump
the count of group `k`, opening a new group when `k` is unseen. -/
def bumpKey (acc : List (Option String × Nat)) (k : Option String) :
    List (Option String × Nat) :=
  match acc with
  | [] => [(k, 1)]
  | (k0, cnt) :: rest =>
      if k0 = k then (k0, cnt + 1) :: rest else (k0, cnt) :: bumpKey rest k

/-- The aggregation pipeline
`[{"$group": {"_id": "$department", "count": {"$sum": 1}}}]` of
`get_students_by_department`, as the group-key → count association list
it accumulates while scanning the collection. -/
def departmentCounts (c : Collection) : List (Option String × Nat) :=
  c.foldl (fun acc d => bumpKey acc (departmentKey d)) []

/-- `tools.get_students_by_department`: the JSON dump of the dict
`{item['_id']: item['count']}` built from the aggregation (group keys are
pairwise distinct, so the comprehension loses nothing). -/
def get_students_by_department (db : Option Collection) : String :=
  match db with
  | none => "Error: Database connection failed."
  | some c => jsonDumpsCounts (departmentCounts c)

/-- `tools.get_recent_onboarded_students`.  Modelled from the spec: the
source shuffles the list with `random.shuffle` (external randomness, out of
scope) before taking `limit` entries; the shuffle is modelled as the
identity permutation. -/
def get_recent_onboarded_students (db : Option Collection) (limit : Nat) : String :=
  match db with
  | none => "Error: Database connection failed."
  | some c => jsonDumpsArray (c.take limit)

/-- `tools.get_active_students_last_7_days`.  Modelled from the spec: the
source returns `str(random.randint(total // 2-ish, total))` (external
randomness, out of scope); modelled at the upper end of the range. -/
def get_active_students_last_7_days (db : Option Collection) : String :=
  match db with
  | none => "Error: Database connection failed."
  | some c => toString (countDocuments c)

/-- `tools.get_cafeteria_timings`. -/
def get_cafeteria_timings : String :=
  "The cafeteria is open from 8:00 AM to 10:00 PM."

/-- `tools.get_library_hours`. -/
def get_library_hours : String :=
  "The library is open from 9:00 AM to 9:00 PM on weekdays and 10:00 AM to 6:00 PM on weekends."

/-- `tools.get_event_schedule`. -/
def get_event_schedule : String :=
  "Upcoming events: AI Hackathon on 25th Oct, Annual Sports Day on 15th Nov."

/-- `tools.send_email` (the mock console printing is a side effect with no
observable state). -/
def send_email (student_id message : String) : String :=
  "Success: A mock email has been sent to student ID " ++ student_id ++ "."

/-!
The agent loop of `backend/agent.py`: a LangGraph `StateGraph` whose state
is the growing message transcript (the `Annotated` reducer appends), with
nodes `"agent"` (`call_model`) and `"action"` (`call_tool`), entry point
`"agent"`, the conditional edge `should_continue` from `"agent"`
(`"continue"` → `"action"`, `"end"` → END) and the plain edge
`"action"` → `"agent"`.
-/

/-- A tool call the model attached to an assistant turn
(`{"name": ..., "args": ..., "id": ...}`). -/
structure ToolCall where
  name : String
  args : List (String × String)
  id : String
deriving DecidableEq

/-- A transcript message: `HumanMessage`, `AIMessage` (with its
`tool_calls` list), or `ToolMessage` (content plus `tool_call_id`). -/
inductive Message where
  | human (text : String)
  | assistant (text : String) (tool_calls : List ToolCall)
  | tool (content : String) (tool_call_id : String)
deriving DecidableEq

/-- The names of the thirteen tools registered in `agent.py`'s `tools`
list (the registry bound to the model and to the `ToolNode`). -/
def toolNames : List String :=
  ["list_students", "get_student", "add_student", "update_student",
   "delete_student", "get_total_students", "get_students_by_department",
   "get_recent_onboarded_students", "get_active_students_last_7_days",
   "get_cafeteria_timings", "get_library_hours", "get_event_schedule",
   "send_email"]

/-- A declared argument of a tool call, by name (missing arguments default
to the empty string; argument validation belongs to the external
registry). -/
def getArg (args : List (String × String)) (k : String) : String :=
  ((args.find? (fun p => p.1 == k)).map Prod.snd).getD ""

/-- The error string a request for an unregistered tool name is reported
back as. -/
def invalidToolMessage (name : String) : String :=
  "Error: " ++ name ++ " is not a valid tool, try one of the registered tools."

/-- Modelled from the spec: the tool-dispatch step of `EXECUTE_TOOL`.  The
source delegates it to LangGraph's `ToolNode` (external library code, not
in this repository); per the spec, a known tool name invokes that tool's
handler with the declared arguments, and an unknown name "is a
fatal-to-this-turn error, reported back as a tool-result error string, not
a process crash".  The handlers are the embedded `tools.py` functions,
threading the collection state. -/
def tool_executor (db : Option Collection) (tc : ToolCall) :
    Option Collection × String :=
  if tc.name == "list_students" then (db, list_students db)
  else if tc.name == "get_student" then (db, get_student db (getArg tc.args "id"))
  else if tc.name == "add_student" then
    add_student db (getArg tc.args "id") (getArg tc.args "name")
      (getArg tc.args "department") (getArg tc.args "email")
  else if tc.name == "update_student" then
    update_student db (getArg tc.args "id") (getArg tc.args "field")
      (getArg tc.args "new_value")
  else if tc.name == "delete_student" then delete_student db (getArg tc.args "id")
  else if tc.name == "get_total_students" then (db, get_total_students db)
  else if tc.name == "get_students_by_department" then
    (db, get_students_by_department db)
  else if tc.name == "get_recent_onboarded_students" then
    (db, get_recent_onboarded_students db (((getArg tc.args "limit").toNat?).getD 5))
  else if tc.name == "get_active_students_last_7_days" then
    (db, get_active_students_last_7_days db)
  else if tc.name == "get_cafeteria_timings" then (db, get_cafeteria_timings)
  else if tc.name == "get_library_hours" then (db, get_library_hours)
  else if tc.name == "get_event_schedule" then (db, get_event_schedule)
  else if tc.name == "send_email" then
    (db, send_email (getArg tc.args "student_id") (getArg tc.args "message"))
  else (db, invalidToolMessage tc.name)

/-- The Model Adapter: the external `ChatOpenAI` model bound to the tool
schemas, as an opaque function from the transcript to the assistant turn it
produces (final text together with the `tool_calls` it attaches). -/
abbrev Adapter := List Message → String × List ToolCall

/-- `agent.call_model`: invoke the model on the transcript and return the
assistant message to append (the graph's reducer does the appending). -/
def call_model (adapter : Adapter) (msgs : List Message) : Message :=
  let response := adapter msgs
  Message.assistant response.1 response.2

/-- `agent.call_tool`: take the LAST message's `tool_calls[0]`, execute it,
and return the updated collection with the single `ToolMessage` to append,
tagged with that first request's id.  `none` models the uncaught
`IndexError`/`AttributeError` the source would raise when the last message
is not an assistant turn carrying at least one tool call (unreachable: the
graph only routes here when `should_continue` saw a nonempty
`tool_calls`). -/
def call_tool (db : Option Collection) (msgs : List Message) :
    Option (Option Collection × Message) :=
  match msgs.getLast? with
  | some (Message.assistant _ (action :: _)) =>
      let result := tool_executor db action
      some (result.1, Message.tool result.2 action.id)
  | _ => none

/-- `agent.should_continue`: `"continue"` exactly when the last message
carries a nonempty `tool_calls` list, else `"end"`. -/
def should_continue (msgs : List Message) : String :=
  match msgs.getLast? with
  | some (Message.assistant _ (_ :: _)) => "continue"
  | _ => "end"

/-- Outcome of driving the compiled graph for a bounded number of
`agent` supersteps.  The graph itself has no bound: `outOfFuel` marks a run
still going when the (meta-level) cutoff is reached. -/
inductive RunResult where
  | finished (db : Option Collection) (msgs : List Message)
  | outOfFuel (db : Option Collection) (msgs : List Message)
  | crashed (db : Option Collection) (msgs : List Message)
deriving DecidableEq

/-- The compiled `workflow` of `agent.py`, driven from the `"agent"` node:
append the model's turn, route through `should_continue`, and on
`"continue"` execute `call_tool`, append its `ToolMessage` and loop back to
`"agent"`.  `fuel` bounds the number of supersteps examined and is a
meta-device only — the graph carries no step cap of its own. -/
def runAgent (adapter : Adapter) :
    Nat → Option Collection → List Message → RunResult
  | 0, db, msgs => RunResult.outOfFuel db msgs
  | fuel + 1, db, msgs =>
      let msgs2 := msgs ++ [call_model adapter msgs]
      if should_continue msgs2 == "continue" then
        match call_tool db msgs2 with
        | some (db2, toolMsg) => runAgent adapter fuel db2 (msgs2 ++ [toolMsg])
        | none => RunResult.crashed db msgs2
      else
        RunResult.finished db msgs2

/-- Whether a message is an assistant turn (one Model Adapter call produces
exactly one such message). -/
def isAssistantMsg : Message → Bool
  | Message.assistant _ _ => true
  | _ => false

/-- Whether a message is a tool-result message (one `EXECUTE_TOOL` cycle
produces exactly one such message). -/
def isToolMsg : Message → Bool
  | Message.tool _ _ => true
  | _ => false

/-- The number of Model Adapter calls a transcript records. -/
def assistantCount (msgs : List Message) : Nat :=
  (msgs.filter isAssistantMsg).length

/-- The number of `EXECUTE_TOOL` cycles a transcript records. -/
def toolMsgCount (msgs : List Message) : Nat :=
  (msgs.filter isToolMsg).length

/-!
The HTTP layer of `backend/main.py`: the streaming gateway
(`chat_stream_endpoint`'s `event_generator`) and the `POST /students`
handler (`add_new_student`).
-/

/-- An event of the underlying `astream_events` stream, as the generator
discriminates them by their `event` kind: a chat-model token chunk (with
its `content`), a finished tool execution (with its stringified output),
the `"on_end"` kind the generator compares against, or any other kind
(ignored). -/
inductive StreamEvent where
  | chatModelStream (content : String)
  | toolEnd (output : String)
  | onEnd
  | other
deriving DecidableEq

/-- A frame pushed on the `text/event-stream` channel:
`data: {"token": ...}` for a partial token, `data: {"tool_output": ...}`
on tool completion, or the literal terminal frame `data: [DONE]`. -/
inductive Frame where
  | token (content : String)
  | toolOutput (output : String)
  | done
deriving DecidableEq

/-- The frames the generator body yields for one incoming event: a token
frame only when the chunk's `content` is truthy (nonempty), a tool-output
frame for `on_tool_end`, the terminal frame for `"on_end"`, nothing
otherwise. -/
def processEvent : StreamEvent → List Frame
  | StreamEvent.chatModelStream c =>
      if c == "" then [] else [Frame.token c]
  | StreamEvent.toolEnd out => [Frame.toolOutput out]
  | StreamEvent.onEnd => [Frame.done]
  | StreamEvent.other => []

/-- One run of the underlying agent stream: the events `astream_events`
yields, in order, before the iteration either completes normally or — when
`fails` is true — raises.  The generator body has no try/except failure
boundary, so an exception propagates out of `event_generator` and the
response stream ends with no further frame. -/
structure StreamRun where
  events : List StreamEvent
  fails : Bool

/-- `event_generator` of `chat_stream_endpoint`: the frames the gateway
emits on the channel are exactly those produced from the events the
underlying stream yielded before completing or raising. -/
def event_generator (r : StreamRun) : List Frame :=
  (r.events.map processEvent).flatten

/-- Whether Python's `json.loads` can succeed on `s`: a JSON document must
begin (after optional whitespace) with an object, array, string, number,
or one of the literals `true`/`false`/`null`.  Only this leading-character
requirement is modelled; it already decides the behaviour on every string
the endpoints pass to it (prose strings such as `"Success: ..."` fail at
the first character). -/
def jsonLoadsSucceeds (s : String) : Bool :=
  match s.toList.dropWhile (fun ch => ch == ' ' || ch == '\t' || ch == '\n' || ch == '\r') with
  | [] => false
  | ch :: _ =>
      ch == Char.ofNat 123 || ch == '[' || ch == '"' || ch == '-'
        || ch.isDigit || ch == 't' || ch == 'f' || ch == 'n'

/-- Python's `str.startswith`, over the underlying character list. -/
def strStartsWith (s pre : String) : Bool :=
  pre.toList.isPrefixOf s.toList

/-- The `POST /students` handler `add_new_student` of `main.py`, returning
the post-state of the collection and the HTTP status code.  The handler
passes the request's `name`, `department`, `year`, `email` positionally
into `add_student`'s `(id, name, department, email)` parameters, answers
400 when the returned string starts with `"Error"`, and otherwise replies
201 with `json.loads(result)` — whose failure is caught by the
`except` clause and answered as 500 (after the insert already
happened). -/
def add_new_student (db : Option Collection)
    (name department year email : String) : Option Collection × Nat :=
  let r := add_student db name department year email
  if strStartsWith r.2 "Error" then (r.1, 400)
  else if jsonLoadsSucceeds r.2 then (r.1, 201)
  else (r.1, 500)

/-!
Helper lemmas and demonstration Model Adapters used by the claim theorems
and their witnesses.
-/

/-- An adversarial Model Adapter that requests the library-hours tool on
every turn and never produces a final answer. -/
def alwaysToolAdapter : Adapter := fun _ =>
  ("", [⟨"get_library_hours", [], "call_1"⟩])

/-- A Model Adapter for the spec's library-hours scenarios: it answers the
message `"hours"` directly, first requests the library-hours tool for the
message `"lib"`, and answers on any later turn. -/
def demoAdapter : Adapter := fun msgs =>
  match msgs with
  | [Message.human "hours"] => ("The library is open.", [])
  | [Message.human "lib"] => ("", [⟨"get_library_hours", [], "call_1"⟩])
  | _ => ("done", [])

/-- A Model Adapter that requests a tool name outside the registry. -/
def badToolAdapter : Adapter := fun _ =>
  ("", [⟨"transmogrify", [], "c9"⟩])

lemma find?_append_of_none {α : Type} (l1 l2 : List α) (p : α → Bool)
    (h : l1.find? p = none) : (l1 ++ l2).find? p = l2.find? p := by
  induction l1 with
  | nil => simp
  | cons a rest ih =>
      rw [List.find?_eq_none] at h
      have hpa : p a = false := by
        have := h a (by simp)
        simpa using this
      have hrest : rest.find? p = none := by
        rw [List.find?_eq_none]
        exact fun x hx => h x (by simp [hx])
      simpa [List.find?_cons, hpa] using ih hrest

lemma any_eq_false_of_find?_none {α : Type} (l : List α) (p : α → Bool)
    (h : l.find? p = none) : l.any p = false := by
  rw [List.find?_eq_none] at h
  simp only [List.any_eq_false]
  exact fun x hx => by simpa using h x hx

lemma runAgent_step_end (adapter : Adapter) (fuel : Nat) (db : Option Collection)
    (msgs : List Message) (t : String) (h : adapter msgs = (t, [])) :
    runAgent adapter (fuel + 1) db msgs
      = RunResult.finished db (msgs ++ [Message.assistant t []]) := by
  simp [runAgent, call_model, h, should_continue, List.getLast?_concat]

lemma runAgent_step_tool (adapter : Adapter) (fuel : Nat) (db : Option Collection)
    (msgs : List Message) (t : String) (tc : ToolCall) (rest : List ToolCall)
    (h : adapter msgs = (t, tc :: rest)) :
    runAgent adapter (fuel + 1) db msgs =
      runAgent adapter fuel (tool_executor db tc).1
        (msgs ++ [Message.assistant t (tc :: rest),
                  Message.tool (tool_executor db tc).2 tc.id]) := by
  simp [runAgent, call_model, h, should_continue, call_tool, List.getLast?_concat]

lemma sum_bumpKey (acc : List (Option String × Nat)) (k : Option String) :
    ((bumpKey acc k).map Prod.snd).sum = (acc.map Prod.snd).sum + 1 := by
  induction acc with
  | nil => simp [bumpKey]
  | cons p rest ih =>
      obtain ⟨k0, cnt⟩ := p
      by_cases hk : k0 = k
      · simp only [bumpKey, if_pos hk, List.map_cons, List.sum_cons]
        omega
      · simp only [bumpKey, if_neg hk, List.map_cons, List.sum_cons, ih]
        omega

lemma sum_departmentCounts_aux (c : Collection) :
    ∀ acc : List (Option String × Nat),
      ((c.foldl (fun a d => bumpKey a (departmentKey d)) acc).map Prod.snd).sum
        = (acc.map Prod.snd).sum + c.length := by
  induction c with
  | nil => intro acc; simp
  | cons d rest ih =>
      intro acc
      simp only [List.foldl_cons, List.length_cons]
      rw [ih (bumpKey acc (departmentKey d)), sum_bumpKey]
      omega

lemma docGet_append_new (d : Document) (k v : String) (h : docHasKey d k = false) :
    docGet (d ++ [(k, v)]) k = some v := by
  have hany : d.any (fun p => p.1 == k) = false := h
  have hnone : d.find? (fun p => p.1 == k) = none := by
    rw [List.find?_eq_none]
    intro x hx
    simpa using (List.any_eq_false.mp hany) x hx
  rw [docGet, find?_append_of_none _ _ _ hnone]
  simp [List.find?]

lemma docGet_map_set (d : Document) (k v : String) (h : docHasKey d k = true) :
    docGet (d.map (fun p => if p.1 == k then (k, v) else p)) k = some v := by
  induction d with
  | nil => simp [docHasKey] at h
  | cons p rest ih =>
      obtain ⟨k0, v0⟩ := p
      by_cases hk : (k0 == k) = true
      · simp [docGet, List.find?, hk]
      · have hk' : (k0 == k) = false := by simpa using hk
        have h' : docHasKey rest k = true := by
          simpa [docHasKey, List.any_cons, hk'] using h
        simpa [docGet, List.find?, hk'] using ih h'

lemma docGet_docSet (d : Document) (k v : String) :
    docGet (docSet d k v) k = some v := by
  by_cases h : docHasKey d k
  · rw [docSet, if_pos h]
    exact docGet_map_set d k v h
  · rw [docSet, if_neg h]
    exact docGet_append_new d k v (by simpa using h)

lemma updateFirst_decomp (c : Collection) (p : Document → Bool)
    (f : Document → Document) (h : c.any p = true) :
    ∃ pre d post, c = pre ++ d :: post ∧ (∀ d0 ∈ pre, p d0 = false) ∧ p d = true ∧
      updateFirst c p f = pre ++ f d :: post := by
  induction c with
  | nil => simp at h
  | cons a rest ih =>
      cases hpa : p a with
      | true =>
          exact ⟨[], a, rest, by simp, by simp, hpa, by simp [updateFirst, hpa]⟩
      | false =>
          have h' : rest.any p = true := by
            simpa [List.any_cons, hpa] using h
          obtain ⟨pre, d, post, hc, hpre, hd, hu⟩ := ih h'
          refine ⟨a :: pre, d, post, by simp [hc], ?_, hd, by simp [updateFirst, hpa, hu]⟩
          intro d0 hd0
          rcases List.mem_cons.mp hd0 with h0 | h0
          · subst h0; exact hpa
          · exact hpre d0 h0

/-!
The claim theorems.
-/

/-- C1: in every `EXECUTE_TOOL` cycle, when the latest assistant turn
carries tool requests `tc :: rest`, exactly the first request `tc` is
executed (`tool_executor` is applied to `tc` alone — the result does not
depend on `rest`, so the remaining requests are never executed) and exactly
one tool-result message, tagged with `tc`'s id, is appended before the loop
returns to the model. -/
theorem C1_first_request_only (db : Option Collection) (adapter : Adapter)
    (fuel : Nat) (msgs : List Message) (text : String)
    (tc : ToolCall) (rest : List ToolCall)
    (h : adapter msgs = (text, tc :: rest)) :
    call_tool db (msgs ++ [Message.assistant text (tc :: rest)])
      = some ((tool_executor db tc).1, Message.tool (tool_executor db tc).2 tc.id)
    ∧ runAgent adapter (fuel + 1) db msgs
      = runAgent adapter fuel (tool_executor db tc).1
          (msgs ++ [Message.assistant text (tc :: rest),
                    Message.tool (tool_executor db tc).2 tc.id]) := by
  constructor
  · simp [call_tool, List.getLast?_concat]
  · exact runAgent_step_tool adapter fuel db msgs text tc rest h

/-- Witness for C1 at a concrete two-request turn: only the first request
(the library-hours tool) runs and only its tool message is appended. -/
theorem C1_first_request_only_witness :
    call_tool (some [])
        [Message.human "hi",
         Message.assistant "" [⟨"get_library_hours", [], "call_1"⟩,
                               ⟨"get_student", [("id", "x")], "call_2"⟩]]
      = some (some [], Message.tool get_library_hours "call_1") := by
  have h := C1_first_request_only (some [])
    (fun _ => ("", [⟨"get_library_hours", [], "call_1"⟩,
                    ⟨"get_student", [("id", "x")], "call_2"⟩]))
    0 [Message.human "hi"] "" ⟨"get_library_hours", [], "call_1"⟩
    [⟨"get_student", [("id", "x")], "call_2"⟩] rfl
  exact h.1

/-- C2: after any assistant turn with no ToolRequest the run is DONE
(`EXECUTE_TOOL` is never entered from it); a model that answers directly
terminates after exactly one Model Adapter call, and one that first
requests a single tool terminates after exactly two (with one tool cycle in
between). -/
theorem C2_terminates_without_tools (adapter : Adapter) (fuel : Nat)
    (db : Option Collection) (msgs : List Message) (m t t1 t2 : String)
    (tc : ToolCall) :
    (adapter msgs = (t, []) →
      runAgent adapter (fuel + 1) db msgs
        = RunResult.finished db (msgs ++ [Message.assistant t []]))
    ∧ (adapter [Message.human m] = (t, []) →
      runAgent adapter (fuel + 1) db [Message.human m]
          = RunResult.finished db [Message.human m, Message.assistant t []]
        ∧ assistantCount [Message.human m, Message.assistant t []] = 1
        ∧ toolMsgCount [Message.human m, Message.assistant t []] = 0)
    ∧ (adapter [Message.human m] = (t1, [tc]) →
      adapter [Message.human m, Message.assistant t1 [tc],
               Message.tool (tool_executor db tc).2 tc.id] = (t2, []) →
      runAgent adapter (fuel + 2) db [Message.human m]
          = RunResult.finished (tool_executor db tc).1
              [Message.human m, Message.assistant t1 [tc],
               Message.tool (tool_executor db tc).2 tc.id,
               Message.assistant t2 []]
        ∧ assistantCount [Message.human m, Message.assistant t1 [tc],
            Message.tool (tool_executor db tc).2 tc.id,
            Message.assistant t2 []] = 2
        ∧ toolMsgCount [Message.human m, Message.assistant t1 [tc],
            Message.tool (tool_executor db tc).2 tc.id,
            Message.assistant t2 []] = 1) := by
  refine ⟨fun h1 => runAgent_step_end adapter fuel db msgs t h1,
          fun h2 => ⟨?_, rfl, rfl⟩,
          fun h3 h4 => ⟨?_, rfl, rfl⟩⟩
  · simpa using runAgent_step_end adapter fuel db [Message.human m] t h2
  · rw [show fuel + 2 = (fuel + 1) + 1 by omega,
        runAgent_step_tool adapter (fuel + 1) db [Message.human m] t1 tc [] h3]
    simpa using runAgent_step_end adapter fuel (tool_executor db tc).1
      [Message.human m, Message.assistant t1 [tc],
       Message.tool (tool_executor db tc).2 tc.id] t2 h4

/-- Witness for C2 on the spec's two library-hours scenarios, run with
`demoAdapter`: a direct answer finishes after one model call; a single
tool request finishes after two. -/
theorem C2_terminates_without_tools_witness :
    runAgent demoAdapter 1 (some []) [Message.human "hours"]
        = RunResult.finished (some [])
            [Message.human "hours", Message.assistant "The library is open." []]
    ∧ runAgent demoAdapter 2 (some []) [Message.human "lib"]
        = RunResult.finished (some [])
            [Message.human "lib",
             Message.assistant "" [⟨"get_library_hours", [], "call_1"⟩],
             Message.tool get_library_hours "call_1",
             Message.assistant "done" []] := by
  constructor
  · exact ((C2_terminates_without_tools demoAdapter 0 (some []) [] "hours"
      "The library is open." "" "" ⟨"", [], ""⟩).2.1 rfl).1
  · exact ((C2_terminates_without_tools demoAdapter 0 (some []) [] "lib" "" ""
      "done" ⟨"get_library_hours", [], "call_1"⟩).2.2 rfl rfl).1

/-- C3 (the code violates the claim): the `workflow` of `agent.py` defines
an uncapped `agent` ↔ `action` cycle.  Against a model that requests a tool
on every turn, the run is still unfinished at EVERY finite cutoff and the
number of completed `EXECUTE_TOOL` cycles grows in lockstep with the
cutoff — there is no maximum-iteration ceiling in the graph and no
"exceeded step budget" failure (the run outcome type has no such case to
produce). -/
theorem C3_no_step_cap : ∀ (fuel : Nat) (db : Option Collection) (msgs : List Message),
    ∃ db2 msgs2, runAgent alwaysToolAdapter fuel db msgs = RunResult.outOfFuel db2 msgs2
      ∧ toolMsgCount msgs2 = toolMsgCount msgs + fuel := by
  intro fuel
  induction fuel with
  | zero => exact fun db msgs => ⟨db, msgs, rfl, by simp⟩
  | succ n ih =>
      intro db msgs
      rw [runAgent_step_tool alwaysToolAdapter n db msgs ""
            ⟨"get_library_hours", [], "call_1"⟩ [] rfl]
      obtain ⟨db2, msgs2, hrun, hcnt⟩ :=
        ih (tool_executor db ⟨"get_library_hours", [], "call_1"⟩).1
          (msgs ++ [Message.assistant "" [⟨"get_library_hours", [], "call_1"⟩],
                    Message.tool
                      (tool_executor db ⟨"get_library_hours", [], "call_1"⟩).2
                      "call_1"])
      refine ⟨db2, msgs2, hrun, ?_⟩
      rw [hcnt]
      simp [toolMsgCount, List.filter_append, isToolMsg]
      omega

/-- C4 (the code violates the claim): `event_generator` has no failure
boundary, so on a run whose underlying agent execution raises after
streaming one token (and hence before any `"on_end"` event), the channel
ends with zero terminal `[DONE]` frames — not exactly one. -/
theorem C4_no_terminal_marker_on_failure :
    StreamRun.fails ⟨[StreamEvent.chatModelStream "Hel"], true⟩ = true
    ∧ event_generator ⟨[StreamEvent.chatModelStream "Hel"], true⟩
        = [Frame.token "Hel"]
    ∧ (event_generator ⟨[StreamEvent.chatModelStream "Hel"], true⟩).count Frame.done
        = 0 :=
  ⟨rfl, rfl, rfl⟩

/-- C5: a ToolRequest whose name matches no registered tool is executed as
the error string `invalidToolMessage` (the collection untouched), and the
`EXECUTE_TOOL` cycle appends that string as a tool-result message tagged
with the request's id and loops back to the model — the run continues
instead of crashing. -/
theorem C5_unknown_tool_reported (db : Option Collection) (adapter : Adapter)
    (fuel : Nat) (msgs : List Message) (text : String) (tc : ToolCall)
    (rest : List ToolCall) (hname : tc.name ∉ toolNames)
    (h : adapter msgs = (text, tc :: rest)) :
    tool_executor db tc = (db, invalidToolMessage tc.name)
    ∧ runAgent adapter (fuel + 1) db msgs
        = runAgent adapter fuel db
            (msgs ++ [Message.assistant text (tc :: rest),
                      Message.tool (invalidToolMessage tc.name) tc.id]) := by
  have hexec : tool_executor db tc = (db, invalidToolMessage tc.name) := by
    simp only [toolNames, List.mem_cons, List.not_mem_nil, or_false] at hname
    push_neg at hname
    obtain ⟨h1, h2, h3, h4, h5, h6, h7, h8, h9, h10, h11, h12, h13⟩ := hname
    simp [tool_executor, h1, h2, h3, h4, h5, h6, h7, h8, h9, h10, h11, h12, h13]
  refine ⟨hexec, ?_⟩
  rw [runAgent_step_tool adapter fuel db msgs text tc rest h, hexec]

/-- Witness for C5: requesting the unregistered tool `"transmogrify"`
yields the error tool message and the loop proceeds. -/
theorem C5_unknown_tool_reported_witness :
    tool_executor (some []) ⟨"transmogrify", [], "c9"⟩
        = (some [], invalidToolMessage "transmogrify")
    ∧ runAgent badToolAdapter 1 (some []) [Message.human "hi"]
        = runAgent badToolAdapter 0 (some [])
            [Message.human "hi",
             Message.assistant "" [⟨"transmogrify", [], "c9"⟩],
             Message.tool (invalidToolMessage "transmogrify") "c9"] := by
  have h := C5_unknown_tool_reported (some []) badToolAdapter 0
    [Message.human "hi"] "" ⟨"transmogrify", [], "c9"⟩ [] (by decide) rfl
  exact ⟨h.1, h.2⟩

/-- C6: adding a student under a fresh id returns the success string, and a
subsequent `get_student` with that id returns the JSON dump of a record
whose name, department and email are exactly the values added. -/
theorem C6_add_then_get (c : Collection) (i n dep e : String)
    (hfresh : findOneById c i = none) :
    (add_student (some c) i n dep e).2
        = "Success: Student " ++ n ++ " with ID " ++ i ++ " has been added."
    ∧ ∃ d : Document,
        get_student (add_student (some c) i n dep e).1 i = jsonDumps d
        ∧ docGet d "name" = some n ∧ docGet d "department" = some dep
        ∧ docGet d "email" = some e := by
  have hadd : add_student (some c) i n dep e
      = (some (c ++ [[("id", i), ("name", n), ("department", dep), ("email", e)]]),
         "Success: Student " ++ n ++ " with ID " ++ i ++ " has been added.") := by
    simp [add_student, hfresh]
  refine ⟨by rw [hadd],
    ⟨[("id", i), ("name", n), ("department", dep), ("email", e)], ?_, rfl, rfl, rfl⟩⟩
  rw [hadd]
  have hfound : findOneById
      (c ++ [[("id", i), ("name", n), ("department", dep), ("email", e)]]) i
      = some [("id", i), ("name", n), ("department", dep), ("email", e)] := by
    rw [findOneById, find?_append_of_none _ _ _ hfresh]
    simp [List.find?, matchesId, docGet]
  simp [get_student, hfound]

/-- Witness for C6 on the empty collection and the spec's scenario
student. -/
theorem C6_add_then_get_witness :
    (add_student (some []) "23-9999" "Omar" "Data Science" "omar@x.edu").2
        = "Success: Student " ++ "Omar" ++ " with ID " ++ "23-9999"
            ++ " has been added."
    ∧ ∃ d : Document,
        get_student (add_student (some []) "23-9999" "Omar" "Data Science"
            "omar@x.edu").1 "23-9999" = jsonDumps d
        ∧ docGet d "name" = some "Omar"
        ∧ docGet d "department" = some "Data Science"
        ∧ docGet d "email" = some "omar@x.edu" :=
  C6_add_then_get [] "23-9999" "Omar" "Data Science" "omar@x.edu" rfl

/-- C7: failed mutations are atomic.  A duplicate-id `add_student` returns
the duplicate-id error and leaves the collection (in particular the
existing record) exactly as it was; a `delete_student` on an absent id
returns the not-found error and leaves the document count unchanged. -/
theorem C7_failed_mutations_atomic (c : Collection) (i n dep e j : String)
    (d : Document) (hdup : findOneById c i = some d)
    (hmiss : findOneById c j = none) :
    add_student (some c) i n dep e
        = (some c, "Error: Student with ID " ++ i ++ " already exists.")
    ∧ findOneById ((add_student (some c) i n dep e).1.getD []) i = some d
    ∧ delete_student (some c) j
        = (some c, "Error: No student found with ID " ++ j ++ ".")
    ∧ countDocuments ((delete_student (some c) j).1.getD [])
        = countDocuments c := by
  have hadd : add_student (some c) i n dep e
      = (some c, "Error: Student with ID " ++ i ++ " already exists.") := by
    simp [add_student, hdup]
  have hanyj : c.any (matchesId j) = false := any_eq_false_of_find?_none _ _ hmiss
  have hdel : delete_student (some c) j
      = (some c, "Error: No student found with ID " ++ j ++ ".") := by
    simp [delete_student, hanyj]
  exact ⟨hadd, by rw [hadd]; simpa using hdup, hdel, by rw [hdel]; rfl⟩

/-- Witness for C7 on a one-record collection: re-adding id 23-1001 and
deleting the absent id 00-0000 both fail atomically. -/
theorem C7_failed_mutations_atomic_witness :
    add_student (some [[("id", "23-1001"), ("name", "Ayesha Khan"),
        ("department", "Computer Science"), ("email", "ayesha@saylani.edu")]])
        "23-1001" "X" "Y" "Z"
      = (some [[("id", "23-1001"), ("name", "Ayesha Khan"),
          ("department", "Computer Science"), ("email", "ayesha@saylani.edu")]],
         "Error: Student with ID " ++ "23-1001" ++ " already exists.")
    ∧ findOneById ((add_student (some [[("id", "23-1001"), ("name", "Ayesha Khan"),
          ("department", "Computer Science"),
          ("email", "ayesha@saylani.edu")]]) "23-1001" "X" "Y" "Z").1.getD [])
        "23-1001"
      = some [("id", "23-1001"), ("name", "Ayesha Khan"),
          ("department", "Computer Science"), ("email", "ayesha@saylani.edu")]
    ∧ delete_student (some [[("id", "23-1001"), ("name", "Ayesha Khan"),
          ("department", "Computer Science"),
          ("email", "ayesha@saylani.edu")]]) "00-0000"
      = (some [[("id", "23-1001"), ("name", "Ayesha Khan"),
          ("department", "Computer Science"), ("email", "ayesha@saylani.edu")]],
         "Error: No student found with ID " ++ "00-0000" ++ ".")
    ∧ countDocuments ((delete_student (some [[("id", "23-1001"),
          ("name", "Ayesha Khan"), ("department", "Computer Science"),
          ("email", "ayesha@saylani.edu")]]) "00-0000").1.getD [])
      = countDocuments [[("id", "23-1001"), ("name", "Ayesha Khan"),
          ("department", "Computer Science"), ("email", "ayesha@saylani.edu")]] :=
  C7_failed_mutations_atomic
    [[("id", "23-1001"), ("name", "Ayesha Khan"),
      ("department", "Computer Science"), ("email", "ayesha@saylani.edu")]]
    "23-1001" "X" "Y" "Z" "00-0000"
    [("id", "23-1001"), ("name", "Ayesha Khan"),
     ("department", "Computer Science"), ("email", "ayesha@saylani.edu")]
    rfl rfl

/-- C8: the per-department counts produced by the aggregation of
`get_students_by_department` sum to exactly the `count_documents` total
that `get_total_students` stringifies, for every collection state. -/
theorem C8_department_counts_sum (c : Collection) :
    ((departmentCounts c).map Prod.snd).sum = countDocuments c
    ∧ get_total_students (some c)
        = toString (((departmentCounts c).map Prod.snd).sum)
    ∧ get_students_by_department (some c) = jsonDumpsCounts (departmentCounts c) := by
  have h : ((departmentCounts c).map Prod.snd).sum = c.length := by
    have := sum_departmentCounts_aux c []
    simpa [departmentCounts] using this
  refine ⟨h, ?_, rfl⟩
  rw [h]
  rfl

/-- C9 (the code violates the claim): a well-formed successful create is
answered with 500, never 201.  The handler feeds the request's
name/department/year/email positionally into `add_student`'s
`(id, name, department, email)` parameters — storing the name as the id —
and then calls `json.loads` on the prose success string, which raises and
is reported as a 500 by the `except` clause, after the insert already
happened. -/
theorem C9_create_returns_500 :
    add_new_student (some []) "Omar" "Data Science" "2023" "omar@x.edu"
      = (some [[("id", "Omar"), ("name", "Data Science"), ("department", "2023"),
                ("email", "omar@x.edu")]], 500) := by
  rfl

/-- C10: for an id present in the store and ANY field-name string,
`update_student` returns the success string and `$set`s that field on the
first matching record — replacing it when present and appending it as a
new key (no rejection of names outside the StudentRecord shape). -/
theorem C10_update_any_field (c : Collection) (i field v : String)
    (h : c.any (matchesId i) = true) :
    update_student (some c) i field v
        = (some (updateFirst c (matchesId i) (fun d => docSet d field v)),
           "Success: Student with ID " ++ i ++ " updated successfully.")
    ∧ (∃ pre d post,
        c = pre ++ d :: post ∧ (∀ d0 ∈ pre, matchesId i d0 = false)
        ∧ matchesId i d = true
        ∧ updateFirst c (matchesId i) (fun d0 => docSet d0 field v)
            = pre ++ docSet d field v :: post
        ∧ docGet (docSet d field v) field = some v)
    ∧ (∀ d0 : Document, docHasKey d0 field = false →
        docSet d0 field v = d0 ++ [(field, v)]) := by
  refine ⟨by simp [update_student, h], ?_, ?_⟩
  · obtain ⟨pre, d, post, hc, hpre, hd, hu⟩ :=
      updateFirst_decomp c (matchesId i) (fun d0 => docSet d0 field v) h
    exact ⟨pre, d, post, hc, hpre, hd, hu, docGet_docSet d field v⟩
  · intro d0 h0
    rw [docSet, if_neg (by simp [h0])]

/-- Witness for C10: setting the out-of-shape field `"nickname"` on an
existing record succeeds and appends the new key. -/
theorem C10_update_any_field_witness :
    update_student (some [[("id", "23-1001"), ("name", "Ayesha Khan")]])
        "23-1001" "nickname" "Ash"
      = (some [[("id", "23-1001"), ("name", "Ayesha Khan"), ("nickname", "Ash")]],
         "Success: Student with ID " ++ "23-1001" ++ " updated successfully.") := by
  rw [(C10_update_any_field [[("id", "23-1001"), ("name", "Ayesha Khan")]]
    "23-1001" "nickname" "Ash" (by decide)).1]
  rfl
